import Mathlib

/-!
Shallow embedding of the appointment-scheduling core of
`secretary_agent` (src/tools/calendar_tools.py), together with proofs
about the claims of its specification.

Modelling conventions:
* Python `str` is Lean `String`; Python truthiness of a string is
  nonemptiness; `Optional[str]` is `Option String`.
* Python `datetime` dates are a `Date` record (year, month, day);
  instants are minutes counted from the proleptic-Gregorian epoch,
  always in the single configured local zone (the code pins
  Europe/Rome everywhere, so zone conversion is the identity here).
* The remote Google-Calendar backend is an oracle: a range query
  `Nat → Nat → Except String (List CalEvent)` (`Except.error` models
  an HttpError raised by the transport), and write endpoints are
  oracles as well.  Every remote call a function performs is recorded
  in an accompanying `List RemoteOp` trace.
* A Python function that can raise an exception which escapes the
  function returns `Option` (with `none` for the escaping exception);
  exceptions caught by the function's own `try/except` blocks are
  modelled inside the result, as in the source.
* Presentation-only artifacts (the Google "add to calendar" URL, emoji
  and quote characters inside message strings) are elided; message
  text that a claim depends on is reproduced.
-/

namespace CalendarTools

/-! ### Python string primitives -/

/-- Characters Python `str.strip()` removes (ASCII whitespace). -/
def pyIsSpace (c : Char) : Bool :=
  c = ' ' || c = '\t' || c = '\n' || c = '\r' || c = '\x0b' || c = '\x0c'

/-- Python `s.strip()` on the character list. -/
def stripList (l : List Char) : List Char :=
  ((l.dropWhile pyIsSpace).reverse.dropWhile pyIsSpace).reverse

/-- Python `s.strip()`. -/
def pyStrip (s : String) : String := ⟨stripList s.data⟩

/-- Python `s.lower()` (ASCII). -/
def pyLower (s : String) : String := ⟨s.data.map Char.toLower⟩

/-- Truthiness of an optional Python string: `None` and `""` are falsy. -/
def truthyO (s : Option String) : Bool :=
  match s with
  | none => false
  | some t => !t.isEmpty

/-- Does `needle` occur at the head of `hay`? -/
def startsList : List Char → List Char → Bool
  | [], _ => true
  | _ :: _, [] => false
  | a :: n, b :: h => a = b && startsList n h

/-- Python substring test `needle in hay`. -/
def hasSub (needle : List Char) : List Char → Bool
  | [] => startsList needle []
  | c :: t => startsList needle (c :: t) || hasSub needle t

/-- Python `s.split(c)` on character lists. -/
def splitOnChar (c : Char) : List Char → List (List Char)
  | [] => [[]]
  | x :: t =>
    let r := splitOnChar c t
    if x = c then [] :: r
    else
      match r with
      | h :: rt => (x :: h) :: rt
      | [] => [[x]]

/-- Value of a digit list read in base 10. -/
def digitsToNat (l : List Char) : Nat :=
  l.foldl (fun a c => a * 10 + (c.toNat - 48)) 0

/-- Python `int(s)`: optional surrounding whitespace, optional sign, digits. -/
def pyInt (s : String) : Option Int :=
  let t := stripList s.data
  let p : Int × List Char :=
    match t with
    | '-' :: r => (-1, r)
    | '+' :: r => (1, r)
    | r => (1, r)
  if p.2 ≠ [] ∧ p.2.all Char.isDigit then some (p.1 * (digitsToNat p.2 : Int))
  else none

/-! ### Identity normalization (calendar_tools.py lines 23-36) -/

/-- `normalize_email`: `None`/empty stays `None`, else strip + lowercase. -/
def normalize_email (email : Option String) : Option String :=
  match email with
  | none => none
  | some s => if s.isEmpty then none else some (pyLower (pyStrip s))

/-- Digits of a phone string, with a leading plus preserved
(`re.sub` on the stripped string, as in the source). -/
def phoneDigits (s : String) : String :=
  let t := pyStrip s
  if t.data.head? = some '+' then ⟨'+' :: t.data.filter Char.isDigit⟩
  else ⟨t.data.filter Char.isDigit⟩

/-- `normalize_phone`: `None`/empty stays `None`, else digit extraction
preserving a leading plus. -/
def normalize_phone (phone : Option String) : Option String :=
  match phone with
  | none => none
  | some s => if s.isEmpty then none else some (phoneDigits s)

/-! ### Dates (proleptic Gregorian, matching Python `datetime.date`) -/

structure Date where
  year : Nat
  month : Nat
  day : Nat
deriving DecidableEq, Repr

def isLeap (y : Nat) : Bool := y % 4 = 0 && (y % 100 ≠ 0 || y % 400 = 0)

def daysInMonth (y m : Nat) : Nat :=
  if m = 2 then (if isLeap y then 29 else 28)
  else if m = 4 ∨ m = 6 ∨ m = 9 ∨ m = 11 then 30
  else 31

def daysBeforeMonth (y m : Nat) : Nat :=
  (List.range (m - 1)).foldl (fun a i => a + daysInMonth y (i + 1)) 0

/-- `datetime.date.toordinal`: day count with 0001-01-01 as day 1. -/
def rataDie (d : Date) : Nat :=
  365 * (d.year - 1) + (d.year - 1) / 4 - (d.year - 1) / 100 + (d.year - 1) / 400
    + daysBeforeMonth d.year d.month + d.day

/-- `datetime.weekday()`: Monday is 0, Sunday is 6. -/
def pyWeekday (d : Date) : Nat := (rataDie d + 6) % 7

/-- Inverse of `rataDie` (civil-from-days on the Gregorian calendar). -/
def fromRataDie (n : Nat) : Date :=
  let zn := n + 305
  let era := zn / 146097
  let doe := zn % 146097
  let yoe := (doe - doe / 1460 + doe / 36524 - doe / 146096) / 365
  let y := yoe + era * 400
  let doy := doe - (365 * yoe + yoe / 4 - yoe / 100)
  let mp := (5 * doy + 2) / 153
  let d := doy - (153 * mp + 2) / 5 + 1
  let m := if mp < 10 then mp + 3 else mp - 9
  ⟨if m ≤ 2 then y + 1 else y, m, d⟩

def pad2 (n : Nat) : String := if n < 10 then "0" ++ toString n else toString n

def pad4 (n : Nat) : String :=
  if n < 10 then "000" ++ toString n
  else if n < 100 then "00" ++ toString n
  else if n < 1000 then "0" ++ toString n
  else toString n

/-- Instant (minutes from the epoch, local zone) of a date at h:mi. -/
def toInstant (d : Date) (h mi : Nat) : Nat := rataDie d * 1440 + h * 60 + mi

def instantDate (t : Nat) : Date := fromRataDie (t / 1440)

/-- `strftime(%Y-%m-%d)` of an instant. -/
def instantDateStr (t : Nat) : String :=
  let d := instantDate t
  pad4 d.year ++ "-" ++ pad2 d.month ++ "-" ++ pad2 d.day

/-- `strftime(%H:%M)` of an instant. -/
def instantTimeStr (t : Nat) : String :=
  pad2 (t % 1440 / 60) ++ ":" ++ pad2 (t % 60)

/-! ### Booking windows and the overlap rule
(return_available_slots, calendar_tools.py line 178) -/

/-- A candidate half-open booking window `[start, stop)`. -/
structure Window where
  start : Nat
  stop : Nat
deriving DecidableEq, Repr

/-- The conflict test of the source:
`not (slot_end <= event_start or slot_start >= event_end)`. -/
def overlaps (a b : Window) : Bool :=
  !(decide (a.stop ≤ b.start) || decide (a.start ≥ b.stop))

/-- C4: the window-overlap predicate is symmetric, and back-to-back
windows (A.stop = B.start) never overlap: the intervals are half-open. -/
theorem overlaps_symm_and_half_open (A B : Window) :
    overlaps A B = overlaps B A ∧ (A.stop = B.start → overlaps A B = false) := by
  constructor
  · simp only [overlaps, ge_iff_le]
    rw [Bool.or_comm]
  · intro h
    simp [overlaps, h]

/-- Witness for the back-to-back hypothesis of
`overlaps_symm_and_half_open` at concrete windows. -/
theorem overlaps_symm_and_half_open_witness :
    overlaps ⟨0, 60⟩ ⟨60, 120⟩ = overlaps ⟨60, 120⟩ ⟨0, 60⟩ ∧
      overlaps ⟨0, 60⟩ ⟨60, 120⟩ = false :=
  ⟨(overlaps_symm_and_half_open ⟨0, 60⟩ ⟨60, 120⟩).1,
   (overlaps_symm_and_half_open ⟨0, 60⟩ ⟨60, 120⟩).2 rfl⟩

/-! ### strptime (the subset of directives used by parse_date_to_datetime)

Python `datetime.strptime` compiles the format to a regex:
`%Y` is exactly four digits, `%m` is `1[0-2]|0[1-9]|[1-9]`,
`%d` is `3[01]|[12]\d|0[1-9]|[1-9]`, a month name matches
case-insensitively, whitespace in the format matches a run of
whitespace, the whole string must be consumed, and the resulting
calendar day is validated by the datetime constructor. -/

inductive Dir where
  | lit (c : Char)
  | ws
  | year4
  | monthNum
  | dayNum
  | monthFull
  | monthAbbr
deriving DecidableEq, Repr

def monthFullNames : List (Nat × List Char) :=
  [(1, "january".data), (2, "february".data), (3, "march".data), (4, "april".data),
   (5, "may".data), (6, "june".data), (7, "july".data), (8, "august".data),
   (9, "september".data), (10, "october".data), (11, "november".data),
   (12, "december".data)]

def monthAbbrNames : List (Nat × List Char) :=
  [(1, "jan".data), (2, "feb".data), (3, "mar".data), (4, "apr".data),
   (5, "may".data), (6, "jun".data), (7, "jul".data), (8, "aug".data),
   (9, "sep".data), (10, "oct".data), (11, "nov".data), (12, "dec".data)]

/-- Match one of the month names (case-insensitively) at the head. -/
def takeName (names : List (Nat × List Char)) (xs : List Char) :
    Option (Nat × List Char) :=
  match names with
  | [] => none
  | (v, nm) :: rest =>
    if startsList nm (xs.map Char.toLower) then some (v, xs.drop nm.length)
    else takeName rest xs

/-- `%Y`: exactly four digits. -/
def takeYear4 : List Char → Option (Nat × List Char)
  | a :: b :: c :: d :: rest =>
    if a.isDigit && b.isDigit && c.isDigit && d.isDigit then
      some (digitsToNat [a, b, c, d], rest)
    else none
  | _ => none

/-- `%m`: regex `1[0-2]|0[1-9]|[1-9]`, alternatives tried in order. -/
def takeMonthNum : List Char → Option (Nat × List Char)
  | c1 :: c2 :: rest =>
    if c1 = '1' && (c2 = '0' || c2 = '1' || c2 = '2') then
      some (10 + (c2.toNat - 48), rest)
    else if c1 = '0' && ('1' ≤ c2 && c2 ≤ '9') then some (c2.toNat - 48, rest)
    else if '1' ≤ c1 && c1 ≤ '9' then some (c1.toNat - 48, c2 :: rest)
    else none
  | [c1] => if '1' ≤ c1 && c1 ≤ '9' then some (c1.toNat - 48, []) else none
  | [] => none

/-- `%d`: regex `3[01]|[12]\d|0[1-9]|[1-9]`, alternatives tried in order. -/
def takeDayNum : List Char → Option (Nat × List Char)
  | c1 :: c2 :: rest =>
    if c1 = '3' && (c2 = '0' || c2 = '1') then some (30 + (c2.toNat - 48), rest)
    else if (c1 = '1' || c1 = '2') && c2.isDigit then
      some ((c1.toNat - 48) * 10 + (c2.toNat - 48), rest)
    else if c1 = '0' && ('1' ≤ c2 && c2 ≤ '9') then some (c2.toNat - 48, rest)
    else if '1' ≤ c1 && c1 ≤ '9' then some (c1.toNat - 48, c2 :: rest)
    else none
  | [c1] => if '1' ≤ c1 && c1 ≤ '9' then some (c1.toNat - 48, []) else none
  | [] => none

structure YMD where
  year : Nat := 1900
  month : Nat := 1
  day : Nat := 1
deriving DecidableEq, Repr

/-- Run the format directives over the input; the whole input must be
consumed (Python raises on unconverted data). -/
def runDirs : List Dir → List Char → YMD → Option YMD
  | [], [], acc => some acc
  | [], _ :: _, _ => none
  | Dir.lit c :: ds, xs, acc =>
    match xs with
    | x :: rest => if x.toLower = c.toLower then runDirs ds rest acc else none
    | [] => none
  | Dir.ws :: ds, xs, acc =>
    match xs with
    | x :: rest =>
      if pyIsSpace x then runDirs ds (rest.dropWhile pyIsSpace) acc else none
    | [] => none
  | Dir.year4 :: ds, xs, acc =>
    match takeYear4 xs with
    | some (v, rest) => runDirs ds rest { acc with year := v }
    | none => none
  | Dir.monthNum :: ds, xs, acc =>
    match takeMonthNum xs with
    | some (v, rest) => runDirs ds rest { acc with month := v }
    | none => none
  | Dir.dayNum :: ds, xs, acc =>
    match takeDayNum xs with
    | some (v, rest) => runDirs ds rest { acc with day := v }
    | none => none
  | Dir.monthFull :: ds, xs, acc =>
    match takeName monthFullNames xs with
    | some (v, rest) => runDirs ds rest { acc with month := v }
    | none => none
  | Dir.monthAbbr :: ds, xs, acc =>
    match takeName monthAbbrNames xs with
    | some (v, rest) => runDirs ds rest { acc with month := v }
    | none => none

/-- `datetime.strptime(s, fmt)` restricted to a calendar day: the regex
match followed by the datetime constructor's calendar validation. -/
def strptimeYMD (fmt : List Dir) (s : String) : Option Date :=
  match runDirs fmt s.data {} with
  | some ymd =>
    if 1 ≤ ymd.year ∧ 1 ≤ ymd.day ∧ ymd.day ≤ daysInMonth ymd.year ymd.month then
      some ⟨ymd.year, ymd.month, ymd.day⟩
    else none
  | none => none

/-! ### parse_date_to_datetime (calendar_tools.py lines 202-235) -/

def fmtIsoYmd : List Dir := [.year4, .lit '-', .monthNum, .lit '-', .dayNum]
def fmtDotDmy : List Dir := [.dayNum, .lit '.', .monthNum, .lit '.', .year4]
def fmtSlashDmy : List Dir := [.dayNum, .lit '/', .monthNum, .lit '/', .year4]
def fmtDashDmy : List Dir := [.dayNum, .lit '-', .monthNum, .lit '-', .year4]
def fmtSlashYmd : List Dir := [.year4, .lit '/', .monthNum, .lit '/', .dayNum]
def fmtDotYmd : List Dir := [.year4, .lit '.', .monthNum, .lit '.', .dayNum]
def fmtSpaceDmy : List Dir := [.dayNum, .ws, .monthNum, .ws, .year4]
def fmtFullMdY : List Dir := [.monthFull, .ws, .dayNum, .lit ',', .ws, .year4]
def fmtAbbrMdY : List Dir := [.monthAbbr, .ws, .dayNum, .lit ',', .ws, .year4]
def fmtDFullMY : List Dir := [.dayNum, .ws, .monthFull, .ws, .year4]
def fmtDAbbrMY : List Dir := [.dayNum, .ws, .monthAbbr, .ws, .year4]

/-- The candidate formats of `parse_date_to_datetime`, in source order. -/
def dateFormats : List (List Dir) :=
  [fmtIsoYmd, fmtDotDmy, fmtSlashDmy, fmtDashDmy, fmtSlashYmd, fmtDotYmd,
   fmtSpaceDmy, fmtFullMdY, fmtAbbrMdY, fmtDFullMY, fmtDAbbrMY]

def tryFormats : List (List Dir) → String → Option Date
  | [], _ => none
  | f :: fs, s =>
    match strptimeYMD f s with
    | some d => some d
    | none => tryFormats fs s

/-- `parse_date_to_datetime`: first matching format wins; `none` models
the `ValueError` raised when every format fails. -/
def parse_date_to_datetime (s : String) : Option Date := tryFormats dateFormats s

/-! ### Business-calendar policy
(is_it_holiday lines 237-254, is_it_in_work_hours lines 282-313) -/

/-- `is_it_holiday`: fixed holiday day/month pairs plus the weekend check;
`none` models the `ValueError` of an unparseable date. -/
def is_it_holiday (date : String) : Option Bool :=
  match parse_date_to_datetime date with
  | none => none
  | some dt =>
    some ((dt.month = 12 && (dt.day = 8 || dt.day = 24 || dt.day = 25 || dt.day = 26))
      || (dt.month = 1 && dt.day = 1)
      || pyWeekday dt ≥ 5)

/-- `HH:MM` (or whatever preprocessing produced) split on a colon,
converted with Python `int` and validated by `datetime.replace`. -/
def parseTimeHM (time : String) : Option (Nat × Nat) :=
  match splitOnChar ':' time.data with
  | p0 :: p1 :: _ =>
    match pyInt ⟨p0⟩, pyInt ⟨p1⟩ with
    | some h, some m =>
      if 0 ≤ h ∧ h ≤ 23 ∧ 0 ≤ m ∧ m ≤ 59 then some (h.toNat, m.toNat) else none
    | _, _ => none
  | _ => none

/-- `is_it_in_work_hours`: `:00` appended to a bare hour, the holiday
check first (so a weekend short-circuits before the time is parsed),
then weekday and the 9-to-17 clock window.  `none` models an escaping
exception. -/
def is_it_in_work_hours (date time : String) : Option Bool :=
  let time := if time.data.contains ':' then time else time ++ ":00"
  match is_it_holiday date with
  | none => none
  | some true => some false
  | some false =>
    match parse_date_to_datetime date with
    | none => none
    | some dt =>
      match parseTimeHM time with
      | none => none
      | some (h, _) =>
        if pyWeekday dt ≥ 5 then some false
        else if h < 9 ∨ h ≥ 17 then some false
        else some true

/-! ### Remote calendar events and the query oracle -/

/-- A remote calendar event resource, as the scheduling code reads it:
opaque id, summary, free-text description, attendee email list (an
attendee record may lack the email field), the normalized identity
stored in `extendedProperties.private`, the raw start string, and the
start/stop instants used for range queries. -/
structure CalEvent where
  id : String
  summary : String := ""
  description : String := ""
  attendees : List (Option String) := []
  emailNormP : Option String := none
  phoneNormP : Option String := none
  startRaw : String := ""
  startI : Nat := 0
  stopI : Nat := 0
deriving DecidableEq, Repr

/-- One remote call, as recorded in a trace. -/
inductive RemoteOp where
  | listWin (tmin tmax : Nat)
  | listUpcoming
  | insertEv (start stop : Nat)
  | deleteEv (id : String)
  | updateEv (id : String) (start stop : Nat)
deriving DecidableEq, Repr

/-- The remote range-query endpoint: `Except.error` is a raised HttpError. -/
abbrev Query := Nat → Nat → Except String (List CalEvent)

/-- Events of a concrete calendar overlapping the half-open window
`[tmin, tmax)` (Google returns events with end after `timeMin` and
start before `timeMax`). -/
def listEvents (cal : List CalEvent) (tmin tmax : Nat) : List CalEvent :=
  cal.filter (fun e => overlaps ⟨e.startI, e.stopI⟩ ⟨tmin, tmax⟩)

/-- A reliable backend over a concrete calendar. -/
def queryCal (cal : List CalEvent) : Query := fun a b => .ok (listEvents cal a b)

/-! ### find_next_available_slot (calendar_tools.py lines 567-633) -/

structure SlotResult where
  status : String
  availableDate : Option String := none
  availableTime : Option String := none
  attemptsChecked : Option Nat := none
  message : String
deriving DecidableEq, Repr

/-- The range-query trace of probing `n` consecutive one-hour windows,
beginning with window number `attempt` of a search that started at `s`. -/
def probeOps (s attempt : Nat) : Nat → List RemoteOp
  | 0 => []
  | n + 1 =>
    .listWin (s + 60 * attempt) (s + 60 * attempt + 60) :: probeOps s (attempt + 1) n

/-- The search loop `for attempt in range(max_attempts)`: probe the
window `attempt` hours after the start; an empty event list is a free
slot, a raised HttpError aborts the whole search. -/
def findNextAux (q : Query) (s maxA : Nat) : Nat → Nat → SlotResult × List RemoteOp
  | _, 0 =>
    ({ status := "rejected",
       message := "No available slot found after checking " ++ toString maxA
         ++ " time slots" }, [])
  | attempt, r + 1 =>
    let slotStart := s + 60 * attempt
    let slotEnd := slotStart + 60
    match q slotStart slotEnd with
    | .error e =>
      ({ status := "rejected",
         message := "Error searching for available slots: " ++ e },
       [.listWin slotStart slotEnd])
    | .ok evs =>
      if evs.isEmpty then
        ({ status := "approved",
           availableDate := some (instantDateStr slotStart),
           availableTime := some (instantTimeStr slotStart),
           attemptsChecked := some (attempt + 1),
           message := "Found available slot at " ++ instantDateStr slotStart ++ " "
             ++ instantTimeStr slotStart ++ " after checking "
             ++ toString (attempt + 1) ++ " slot(s)" },
         [.listWin slotStart slotEnd])
      else
        let rec2 := findNextAux q s maxA (attempt + 1) r
        (rec2.1, .listWin slotStart slotEnd :: rec2.2)

/-- `find_next_available_slot`: parse the starting date and time, then
probe forward in one-hour steps; parse failures are swallowed by the
generic `except` clause into a rejection. -/
def find_next_available_slot (q : Query) (date time : String) (maxAttempts : Nat) :
    SlotResult × List RemoteOp :=
  match parse_date_to_datetime date with
  | none =>
    ({ status := "rejected",
       message := "Failed to find available slot: ValueError" }, [])
  | some dt =>
    match parseTimeHM time with
    | none =>
      ({ status := "rejected",
         message := "Failed to find available slot: ValueError" }, [])
    | some (h, mi) => findNextAux q (toInstant dt h mi) maxAttempts 0 maxAttempts

/-! ### Correctness of the slot search -/

/-- If window `attempt + k` is the first free window from `attempt` on,
and at most `r` more windows may be probed with `k < r`, the loop stops
at it with `attempt + k + 1` attempts recorded. -/
theorem findNextAux_found (cal : List CalEvent) (s maxA : Nat) :
    ∀ r attempt k, k < r →
      listEvents cal (s + 60 * (attempt + k)) (s + 60 * (attempt + k) + 60) = [] →
      (∀ j, j < k →
        listEvents cal (s + 60 * (attempt + j)) (s + 60 * (attempt + j) + 60) ≠ []) →
      findNextAux (queryCal cal) s maxA attempt r =
        ({ status := "approved",
           availableDate := some (instantDateStr (s + 60 * (attempt + k))),
           availableTime := some (instantTimeStr (s + 60 * (attempt + k))),
           attemptsChecked := some (attempt + k + 1),
           message := "Found available slot at "
             ++ instantDateStr (s + 60 * (attempt + k)) ++ " "
             ++ instantTimeStr (s + 60 * (attempt + k)) ++ " after checking "
             ++ toString (attempt + k + 1) ++ " slot(s)" },
         probeOps s attempt (k + 1)) := by
  intro r
  induction r with
  | zero => intro attempt k hk; omega
  | succ r ih =>
    intro attempt k hk hfree hprev
    cases k with
    | zero =>
      have hfree0 : listEvents cal (s + 60 * attempt) (s + 60 * attempt + 60) = [] := by
        simpa using hfree
      simp [findNextAux, queryCal, hfree0, probeOps]
    | succ k2 =>
      have hocc : listEvents cal (s + 60 * attempt) (s + 60 * attempt + 60) ≠ [] := by
        have := hprev 0 (Nat.succ_pos k2)
        simpa using this
      have harith : attempt + (k2 + 1) = (attempt + 1) + k2 := by omega
      have ihr := ih (attempt + 1) k2 (by omega)
        (by rw [← harith]; exact hfree)
        (by
          intro j hj
          have := hprev (j + 1) (by omega)
          have haj : attempt + (j + 1) = (attempt + 1) + j := by omega
          rw [← haj]; exact this)
      cases hE : listEvents cal (s + 60 * attempt) (s + 60 * attempt + 60) with
      | nil => exact absurd hE hocc
      | cons a l =>
        simp only [findNextAux, queryCal, hE, List.isEmpty_cons, probeOps]
        rw [harith]
        simp [ihr, probeOps]

/-- If every one of the `r` remaining windows is occupied, the loop
exhausts and rejects, having probed all of them. -/
theorem findNextAux_exhausted (cal : List CalEvent) (s maxA : Nat) :
    ∀ r attempt,
      (∀ k, k < r →
        listEvents cal (s + 60 * (attempt + k)) (s + 60 * (attempt + k) + 60) ≠ []) →
      findNextAux (queryCal cal) s maxA attempt r =
        ({ status := "rejected",
           message := "No available slot found after checking " ++ toString maxA
             ++ " time slots" },
         probeOps s attempt r) := by
  intro r
  induction r with
  | zero => intro attempt _; simp [findNextAux, probeOps]
  | succ r ih =>
    intro attempt hocc
    have hocc0 : listEvents cal (s + 60 * attempt) (s + 60 * attempt + 60) ≠ [] := by
      have := hocc 0 (Nat.succ_pos r)
      simpa using this
    have ihr := ih (attempt + 1) (by
      intro k hk
      have := hocc (k + 1) (by omega)
      have haj : attempt + (k + 1) = (attempt + 1) + k := by omega
      rw [← haj]; exact this)
    cases hE : listEvents cal (s + 60 * attempt) (s + 60 * attempt + 60) with
    | nil => exact absurd hE hocc0
    | cons a l =>
      simp only [findNextAux, queryCal, hE, List.isEmpty_cons, probeOps]
      simp [ihr]

/-- The loop issues at most `r` remote range queries. -/
theorem findNextAux_length (q : Query) (s maxA : Nat) :
    ∀ r attempt, (findNextAux q s maxA attempt r).2.length ≤ r := by
  intro r
  induction r with
  | zero => intro attempt; simp [findNextAux]
  | succ r ih =>
    intro attempt
    simp only [findNextAux]
    cases q (s + 60 * attempt) (s + 60 * attempt + 60) with
    | error e => simp
    | ok evs =>
      cases evs with
      | nil => simp
      | cons a l =>
        simp only [List.isEmpty_cons]
        have := ih (attempt + 1)
        simp
        omega

/-- C2: for a reliable backend over any concrete calendar,
`find_next_available_slot` probes at most `max_attempts` consecutive
one-hour windows stepping forward one hour from the parsed start; it
returns the earliest probed free window, with `attempts_checked` equal
to that window's index plus one, and rejects only after all
`max_attempts` probed windows were occupied. -/
theorem find_next_available_slot_spec (cal : List CalEvent) (date time : String)
    (D : Date) (H M : Nat) (maxA : Nat)
    (hd : parse_date_to_datetime date = some D) (ht : parseTimeHM time = some (H, M)) :
    (∀ k, k < maxA →
      listEvents cal (toInstant D H M + 60 * k) (toInstant D H M + 60 * k + 60) = [] →
      (∀ j, j < k →
        listEvents cal (toInstant D H M + 60 * j) (toInstant D H M + 60 * j + 60) ≠ []) →
      (find_next_available_slot (queryCal cal) date time maxA).1.status = "approved" ∧
      (find_next_available_slot (queryCal cal) date time maxA).1.availableDate =
        some (instantDateStr (toInstant D H M + 60 * k)) ∧
      (find_next_available_slot (queryCal cal) date time maxA).1.availableTime =
        some (instantTimeStr (toInstant D H M + 60 * k)) ∧
      (find_next_available_slot (queryCal cal) date time maxA).1.attemptsChecked =
        some (k + 1) ∧
      (find_next_available_slot (queryCal cal) date time maxA).2 =
        probeOps (toInstant D H M) 0 (k + 1)) ∧
    ((∀ k, k < maxA →
        listEvents cal (toInstant D H M + 60 * k) (toInstant D H M + 60 * k + 60) ≠ []) →
      (find_next_available_slot (queryCal cal) date time maxA).1 =
        { status := "rejected",
          message := "No available slot found after checking " ++ toString maxA
            ++ " time slots" } ∧
      (find_next_available_slot (queryCal cal) date time maxA).2 =
        probeOps (toInstant D H M) 0 maxA) ∧
    (∀ q : Query, (find_next_available_slot q date time maxA).2.length ≤ maxA) := by
  refine ⟨?_, ?_, ?_⟩
  · intro k hk hfree hprev
    have h := findNextAux_found cal (toInstant D H M) maxA maxA 0 k hk
      (by simpa using hfree) (by intro j hj; simpa using hprev j hj)
    simp only [find_next_available_slot, hd, ht, h]
    simp
  · intro hocc
    have h := findNextAux_exhausted cal (toInstant D H M) maxA maxA 0
      (by intro k hk; simpa using hocc k hk)
    simp only [find_next_available_slot, hd, ht, h]
    simp
  · intro q
    simp only [find_next_available_slot, hd, ht]
    exact findNextAux_length q (toInstant D H M) maxA maxA 0

/-- Witness for `find_next_available_slot_spec`: an empty calendar,
start 2025-12-05 14:00, three attempts; the first window is free. -/
theorem find_next_available_slot_spec_witness :
    (find_next_available_slot (queryCal []) "2025-12-05" "14:00" 3).1.status =
      "approved" ∧
    (find_next_available_slot (queryCal []) "2025-12-05" "14:00" 3).1.attemptsChecked =
      some 1 := by
  have h := (find_next_available_slot_spec [] "2025-12-05" "14:00" ⟨2025, 12, 5⟩ 14 0 3
    (by decide) (by decide)).1 0 (by decide) (by decide) (by intro j hj; omega)
  exact ⟨h.1, h.2.2.2.1⟩

/-- If the `j`-th probe's remote read raises while every earlier probe
returned an occupied window, the loop aborts at once with the HttpError
rejection: no retry, no attempts count in the result. -/
theorem findNextAux_remote_failure (q : Query) (s maxA : Nat) (e : String) :
    ∀ r attempt j, j < r →
      (∀ i, i < j → ∃ evs,
        q (s + 60 * (attempt + i)) (s + 60 * (attempt + i) + 60) = .ok evs ∧ evs ≠ []) →
      q (s + 60 * (attempt + j)) (s + 60 * (attempt + j) + 60) = .error e →
      findNextAux q s maxA attempt r =
        ({ status := "rejected",
           message := "Error searching for available slots: " ++ e },
         probeOps s attempt (j + 1)) := by
  intro r
  induction r with
  | zero => intro attempt j hj; omega
  | succ r ih =>
    intro attempt j hj hprev hfail
    cases j with
    | zero =>
      have hfail0 : q (s + 60 * attempt) (s + 60 * attempt + 60) = .error e := by
        simpa using hfail
      simp [findNextAux, hfail0, probeOps]
    | succ j2 =>
      obtain ⟨evs, hq0, hne⟩ := hprev 0 (Nat.succ_pos j2)
      have hq0w : q (s + 60 * attempt) (s + 60 * attempt + 60) = .ok evs := by
        simpa using hq0
      have harith : attempt + (j2 + 1) = (attempt + 1) + j2 := by omega
      have ihr := ih (attempt + 1) j2 (by omega)
        (by
          intro i hi
          have := hprev (i + 1) (by omega)
          have hai : attempt + (i + 1) = (attempt + 1) + i := by omega
          rw [← hai]; exact this)
        (by rw [← harith]; exact hfail)
      cases evs with
      | nil => exact absurd rfl hne
      | cons a l =>
        simp only [findNextAux, hq0w, List.isEmpty_cons, probeOps]
        simp [ihr, probeOps]

/-- C9 counterexample: a backend whose reads raise makes
`find_next_available_slot` return a result that carries no
attempts-checked count and whose status tag, `rejected`, is the same
one returned when every probed slot is occupied — not a distinguished
RemoteFailure with attempts-checked-so-far. -/
theorem find_next_remote_failure_counterexample :
    (find_next_available_slot (fun _ _ => Except.error "HttpError")
        "2025-12-05" "14:00" 10).1.attemptsChecked = none ∧
    (find_next_available_slot (fun _ _ => Except.error "HttpError")
        "2025-12-05" "14:00" 10).1.status = "rejected" ∧
    (find_next_available_slot
        (queryCal [{ id := "busy", startI := 0, stopI := 2000000000 }])
        "2025-12-05" "14:00" 10).1.status = "rejected" := by
  refine ⟨by decide, by decide, by decide⟩

/-- C9 (amended): a remote read failure at probe `j` (after `j` occupied
probes) surfaces as a `rejected` result whose message is the
slot-search error text and whose `attempts_checked` field is absent;
the status tag is the same `rejected` used for the occupied/exhausted
outcome, so the failure is distinguishable from a conflict only by
message text, and the attempts-checked-so-far count is not carried. -/
theorem find_next_remote_failure_surfaces (q : Query) (date time : String)
    (D : Date) (H M : Nat) (maxA j : Nat) (e : String)
    (hd : parse_date_to_datetime date = some D) (ht : parseTimeHM time = some (H, M))
    (hj : j < maxA)
    (hprev : ∀ i, i < j → ∃ evs,
      q (toInstant D H M + 60 * i) (toInstant D H M + 60 * i + 60) = .ok evs ∧ evs ≠ [])
    (hfail : q (toInstant D H M + 60 * j) (toInstant D H M + 60 * j + 60) = .error e) :
    find_next_available_slot q date time maxA =
      ({ status := "rejected", availableDate := none, availableTime := none,
         attemptsChecked := none,
         message := "Error searching for available slots: " ++ e },
       probeOps (toInstant D H M) 0 (j + 1)) := by
  have h := findNextAux_remote_failure q (toInstant D H M) maxA e maxA 0 j hj
    (by intro i hi; simpa using hprev i hi) (by simpa using hfail)
  simp only [find_next_available_slot, hd, ht, h]

/-- Witness for `find_next_remote_failure_surfaces`: a backend that
raises on the very first probe. -/
theorem find_next_remote_failure_surfaces_witness :
    find_next_available_slot (fun _ _ => Except.error "boom") "2025-12-05" "14:00" 5 =
      ({ status := "rejected", availableDate := none, availableTime := none,
         attemptsChecked := none,
         message := "Error searching for available slots: " ++ "boom" },
       probeOps (toInstant ⟨2025, 12, 5⟩ 14 0) 0 1) :=
  find_next_remote_failure_surfaces (fun _ _ => Except.error "boom") "2025-12-05" "14:00"
    ⟨2025, 12, 5⟩ 14 0 5 0 "boom" (by decide) (by decide) (by decide)
    (by intro i hi; omega) rfl

/-! ### check_availability (calendar_tools.py lines 635-790) -/

/-- A resumed tool confirmation: the user's yes/no and the payload that
was handed out when the offer was made (a dict whose values may be
Python `None`). -/
structure Confirmation where
  confirmed : Bool
  payload : List (String × Option String)
deriving DecidableEq, Repr

/-- Python `payload.get(k)`: `None` for a missing key or a stored `None`. -/
def payloadGet (p : List (String × Option String)) (k : String) : Option String :=
  match p.find? (fun kv => kv.1 == k) with
  | some kv => kv.2
  | none => none

/-- Python `payload.get(k, d)`: the default applies only to a missing key. -/
def payloadGetD (p : List (String × Option String)) (k : String) (d : Option String) :
    Option String :=
  match p.find? (fun kv => kv.1 == k) with
  | some kv => kv.2
  | none => d

structure CheckResult where
  status : String
  isAvailable : Bool
  requestedDate : Option String := none
  requestedTime : Option String := none
  alternativeDate : Option String := none
  alternativeTime : Option String := none
  message : String
deriving DecidableEq, Repr

/-- A `request_confirmation` side effect: the human-readable hint and
the payload the caller must hand back on resume. -/
def PendingReq := String × List (String × Option String)

/-- `check_availability`: resume handling first, then the work-hours
gate (whose escaping exception is the outer `none`), then the conflict
check and, when occupied, the alternative-slot offer. -/
def check_availability (q : Query) (conf : Option Confirmation) (date time : String) :
    Option (CheckResult × List RemoteOp × Option PendingReq) :=
  match conf with
  | some c =>
    if c.confirmed then
      some ({ status := "approved", isAvailable := true,
              requestedDate := payloadGetD c.payload "alternative_date" (some date),
              requestedTime := payloadGet c.payload "alternative_time",
              message := "Alternative time slot approved" }, [], none)
    else
      some ({ status := "rejected", isAvailable := false,
              requestedDate := some date, requestedTime := some time,
              message := "User declined the alternative time slot" }, [], none)
  | none =>
    match is_it_in_work_hours date time with
    | none => none
    | some false =>
      some ({ status := "rejected", isAvailable := false,
              requestedDate := some date, requestedTime := some time,
              message := "The requested time is outside business hours (9 AM - 5 PM, Monday-Friday) or falls on a holiday. Please choose a time during business hours." },
            [], none)
    | some true =>
      match parse_date_to_datetime date, parseTimeHM time with
      | some dt, some (h, mi) =>
        let s := toInstant dt h mi
        (match q s (s + 60) with
         | .error e =>
           some ({ status := "rejected", isAvailable := false,
                   message := "An error occurred while checking availability: " ++ e },
                 [.listWin s (s + 60)], none)
         | .ok evs =>
           if evs.isEmpty then
             some ({ status := "approved", isAvailable := true,
                     requestedDate := some date, requestedTime := some time,
                     message := "Time slot is available" },
                   [.listWin s (s + 60)], none)
           else
             let next := find_next_available_slot q date time 10
             if next.1.status = "rejected" then
               some ({ status := "rejected", isAvailable := false,
                       requestedDate := some date, requestedTime := some time,
                       message := "Time slot is occupied. No alternative slots available in the next 10 hours." },
                     .listWin s (s + 60) :: next.2, none)
             else
               some ({ status := "pending", isAvailable := false,
                       requestedDate := some date, requestedTime := some time,
                       alternativeDate := next.1.availableDate,
                       alternativeTime := next.1.availableTime,
                       message := "Time slot is occupied. Would you like to book "
                         ++ next.1.availableDate.getD "" ++ " at "
                         ++ next.1.availableTime.getD "" ++ " instead?" },
                     .listWin s (s + 60) :: next.2,
                     some ("The time slot " ++ time ++ " on " ++ date
                         ++ " is occupied. Would you like to book "
                         ++ next.1.availableDate.getD "" ++ " at "
                         ++ next.1.availableTime.getD "" ++ " instead?",
                       [("original_date", some date), ("original_time", some time),
                        ("alternative_date", next.1.availableDate),
                        ("alternative_time", next.1.availableTime)])))
      | _, _ =>
        some ({ status := "rejected", isAvailable := false,
                message := "Failed to check availability: ValueError" }, [], none)

/-- C3 counterexample: 2025-12-06 is a Saturday, so even with an empty
calendar `check_availability` rejects the 14:00 slot at the work-hours
gate instead of approving it. -/
theorem check_availability_2025_12_06_counterexample :
    (check_availability (queryCal []) none "2025-12-06" "14:00").map
        (fun r => (r.1.status, r.1.isAvailable)) = some ("rejected", false) ∧
    pyWeekday ⟨2025, 12, 6⟩ = 5 := by
  constructor
  · decide
  · decide

/-- C3 (amended): on a working weekday — 2025-12-05 14:00 — with no
conflicting events in the requested window, `check_availability`
returns `approved` with `is_available = true`. -/
theorem check_availability_free_slot_approved (q : Query)
    (hq : q (toInstant ⟨2025, 12, 5⟩ 14 0) (toInstant ⟨2025, 12, 5⟩ 14 0 + 60) =
      Except.ok []) :
    check_availability q none "2025-12-05" "14:00" =
      some ({ status := "approved", isAvailable := true,
              requestedDate := some "2025-12-05", requestedTime := some "14:00",
              message := "Time slot is available" },
            [RemoteOp.listWin (toInstant ⟨2025, 12, 5⟩ 14 0)
               (toInstant ⟨2025, 12, 5⟩ 14 0 + 60)], none) := by
  have h1 : is_it_in_work_hours "2025-12-05" "14:00" = some true := by decide
  have h2 : parse_date_to_datetime "2025-12-05" = some ⟨2025, 12, 5⟩ := by decide
  have h3 : parseTimeHM "14:00" = some (14, 0) := by decide
  simp only [check_availability, h1, h2, h3, hq, List.isEmpty_nil, if_true]

/-- Witness for `check_availability_free_slot_approved`: the empty
calendar backend. -/
theorem check_availability_free_slot_approved_witness :
    check_availability (queryCal []) none "2025-12-05" "14:00" =
      some ({ status := "approved", isAvailable := true,
              requestedDate := some "2025-12-05", requestedTime := some "14:00",
              message := "Time slot is available" },
            [RemoteOp.listWin (toInstant ⟨2025, 12, 5⟩ 14 0)
               (toInstant ⟨2025, 12, 5⟩ 14 0 + 60)], none) :=
  check_availability_free_slot_approved (queryCal []) rfl

/-! ### insert_appointment (calendar_tools.py lines 792-970) -/

/-- Python `not s or not s.strip()`: empty or whitespace-only. -/
def pyBlank (s : String) : Bool := s.isEmpty || (pyStrip s).isEmpty

/-- The required-field validation of `insert_appointment`, in source
order (the name field is reported as "name"). -/
def missingFields (fullName email phone date time : String) : List String :=
  (if pyBlank fullName then ["name"] else []) ++
  (if pyBlank email then ["email"] else []) ++
  (if pyBlank phone then ["phone"] else []) ++
  (if pyBlank date then ["date"] else []) ++
  (if pyBlank time then ["time"] else [])

structure InsertResult where
  status : String
  missing : List String := []
  orderId : Option String := none
  calendarId : Option String := none
  fullName : Option String := none
  email : Option String := none
  phone : Option String := none
  date : Option String := none
  time : Option String := none
  treatment : Option String := none
  message : String
deriving DecidableEq, Repr

/-- `insert_appointment`: field validation, then the work-hours gate
(both before any remote call; an exception escaping the gate is the
outer `none`), then the final conflict re-check and the guarded insert.
`ins` is the remote create endpoint, returning the new event id. -/
def insert_appointment (q : Query) (ins : Nat → Nat → Except String String)
    (fullName email phone date time treatment : String) :
    Option (InsertResult × List RemoteOp) :=
  let missing := missingFields fullName email phone date time
  if missing ≠ [] then
    some ({ status := "rejected", missing := missing,
            message := "Cannot book yet. Missing required field(s): "
              ++ String.intercalate ", " missing }, [])
  else
    match is_it_in_work_hours date time with
    | none => none
    | some false =>
      some ({ status := "rejected",
              message := "ERROR: Cannot book - the time " ++ time ++ " on " ++ date
                ++ " is outside business hours (9 AM - 5 PM, Monday-Friday) or falls on a holiday." },
            [])
    | some true =>
      match parse_date_to_datetime date, parseTimeHM time with
      | some dt, some (h, mi) =>
        let s := toInstant dt h mi
        (match q s (s + 60) with
         | .error e =>
           some ({ status := "rejected", message := "An error occurred: " ++ e },
                 [.listWin s (s + 60)])
         | .ok evs =>
           if evs.isEmpty then
             match ins s (s + 60) with
             | .error e =>
               some ({ status := "rejected", message := "An error occurred: " ++ e },
                     [.listWin s (s + 60), .insertEv s (s + 60)])
             | .ok evId =>
               some ({ status := "approved", orderId := some evId,
                       calendarId := some "primary",
                       fullName := some fullName, email := some email,
                       phone := some phone, date := some date, time := some time,
                       treatment := some treatment,
                       message := "Confirmed " ++ treatment ++ " for " ++ fullName
                         ++ " on " ++ date ++ " at " ++ time ++ ". Email: " ++ email
                         ++ ", Phone: " ++ phone ++ "." },
                     [.listWin s (s + 60), .insertEv s (s + 60)])
           else
             let next := find_next_available_slot q date time 10
             if next.1.status = "approved" then
               some ({ status := "rejected",
                       message := "ERROR: Cannot book - the slot on " ++ date ++ " at "
                         ++ time ++ " is already occupied. The next available slot is "
                         ++ next.1.availableDate.getD "" ++ " at "
                         ++ next.1.availableTime.getD ""
                         ++ ". Please use that time instead." },
                     .listWin s (s + 60) :: next.2)
             else
               some ({ status := "rejected",
                       message := "ERROR: Cannot book - the slot on " ++ date ++ " at "
                         ++ time
                         ++ " is already occupied and no alternative slots are available in the next 10 hours." },
                     .listWin s (s + 60) :: next.2))
      | _, _ =>
        some ({ status := "rejected",
                message := "Failed to create appointment: ValueError" }, [])

/-- C1: `insert_appointment` returns `approved` only when the
work-hours policy holds, and whenever `is_it_in_work_hours` is false it
returns `rejected` with an empty remote trace — before any conflict
query or event creation, whatever the calendar backend would answer. -/
theorem insert_appointment_workhours_gate (q : Query)
    (ins : Nat → Nat → Except String String)
    (fullName email phone date time treatment : String) :
    (∀ r ops,
      insert_appointment q ins fullName email phone date time treatment = some (r, ops) →
      r.status = "approved" → is_it_in_work_hours date time = some true) ∧
    (is_it_in_work_hours date time = some false →
      ∃ r, insert_appointment q ins fullName email phone date time treatment =
          some (r, []) ∧ r.status = "rejected") := by
  constructor
  · intro r ops hr happ
    by_cases hm : missingFields fullName email phone date time = []
    · cases hwh : is_it_in_work_hours date time with
      | none =>
        simp [insert_appointment, if_neg (show ¬missingFields fullName email phone date time ≠ [] from fun hcon => hcon hm), hwh] at hr
      | some b =>
        cases b with
        | true => rfl
        | false =>
          simp only [insert_appointment, if_neg (show ¬missingFields fullName email phone date time ≠ [] from fun hcon => hcon hm), hwh,
            Option.some.injEq, Prod.mk.injEq] at hr
          rw [← hr.1] at happ
          simp at happ
    · simp only [insert_appointment, if_pos hm, Option.some.injEq,
        Prod.mk.injEq] at hr
      rw [← hr.1] at happ
      simp at happ
  · intro hwh
    by_cases hm : missingFields fullName email phone date time = []
    · refine ⟨{ status := "rejected",
                message := "ERROR: Cannot book - the time " ++ time ++ " on " ++ date
                  ++ " is outside business hours (9 AM - 5 PM, Monday-Friday) or falls on a holiday." },
              ?_, rfl⟩
      simp only [insert_appointment, if_neg (show ¬missingFields fullName email phone date time ≠ [] from fun hcon => hcon hm), hwh]
    · refine ⟨{ status := "rejected",
                missing := missingFields fullName email phone date time,
                message := "Cannot book yet. Missing required field(s): "
                  ++ String.intercalate ", "
                      (missingFields fullName email phone date time) },
              ?_, rfl⟩
      simp only [insert_appointment, if_pos hm]

/-- Witness for `insert_appointment_workhours_gate`: a Saturday request
is rejected with no remote calls. -/
theorem insert_appointment_workhours_gate_witness :
    ∃ r, insert_appointment (queryCal []) (fun _ _ => Except.ok "id1")
        "John Doe" "john@example.com" "+15551234567" "2025-12-06" "14:00"
        "General Consultation" = some (r, []) ∧ r.status = "rejected" :=
  (insert_appointment_workhours_gate (queryCal []) (fun _ _ => Except.ok "id1")
    "John Doe" "john@example.com" "+15551234567" "2025-12-06" "14:00"
    "General Consultation").2 (by decide)

/-- C5: when any required field is empty or whitespace-only,
`insert_appointment` rejects with exactly the list of missing field
names and makes no remote call; in particular an empty email alone
yields `missing = ["email"]`. -/
theorem insert_appointment_missing_fields (q : Query)
    (ins : Nat → Nat → Except String String)
    (fullName email phone date time treatment : String) :
    (missingFields fullName email phone date time ≠ [] →
      insert_appointment q ins fullName email phone date time treatment =
        some ({ status := "rejected",
                missing := missingFields fullName email phone date time,
                message := "Cannot book yet. Missing required field(s): "
                  ++ String.intercalate ", "
                      (missingFields fullName email phone date time) }, [])) ∧
    (pyBlank email = true → pyBlank fullName = false → pyBlank phone = false →
      pyBlank date = false → pyBlank time = false →
      ∃ r, insert_appointment q ins fullName email phone date time treatment =
          some (r, []) ∧ r.status = "rejected" ∧ r.missing = ["email"]) := by
  constructor
  · intro hm
    simp only [insert_appointment, if_pos hm]
  · intro he hn hp hd htm
    have hm : missingFields fullName email phone date time = ["email"] := by
      simp [missingFields, he, hn, hp, hd, htm]
    refine ⟨{ status := "rejected",
              missing := missingFields fullName email phone date time,
              message := "Cannot book yet. Missing required field(s): "
                ++ String.intercalate ", "
                    (missingFields fullName email phone date time) },
            ?_, rfl, ?_⟩
    · simp only [insert_appointment,
        if_pos (show missingFields fullName email phone date time ≠ [] by
          simp [hm])]
    · simp [hm]

/-- Witness for `insert_appointment_missing_fields`: an empty email
with every other field present. -/
theorem insert_appointment_missing_fields_witness :
    ∃ r, insert_appointment (queryCal []) (fun _ _ => Except.ok "id1")
        "John Doe" "" "+15551234567" "2025-12-05" "14:00"
        "General Consultation" = some (r, []) ∧
      r.status = "rejected" ∧ r.missing = ["email"] :=
  (insert_appointment_missing_fields (queryCal []) (fun _ _ => Except.ok "id1")
    "John Doe" "" "+15551234567" "2025-12-05" "14:00" "General Consultation").2
    (by decide) (by decide) (by decide) (by decide) (by decide)

/-! ### Identity matching over the upcoming-events list
(the per-event matching loop shared verbatim by delete_appointment,
lines 1019-1046, and move_appointment, lines 1147-1168) -/

/-- Outcome of walking the upcoming events: the first matching event
with the per-identifier verification detail, no match at all, or an
escaping `TypeError` (the legacy fallback compares against
`normalize_phone(description)`, which is Python `None` when the
description is empty). -/
inductive MatchScan where
  | found (ev : CalEvent) (emailMatched phoneMatched : Bool)
  | noMatch
  | pyErr
deriving DecidableEq, Repr

/-- The matching loop body: stored normalized metadata is preferred,
attendee emails and description digits are the legacy fallback, and
OR-semantics over the supplied identifiers selects the event. -/
def scanEvents (emailN phoneN : Option String) : List CalEvent → MatchScan
  | [] => .noMatch
  | ev :: rest =>
    let emailMatches :=
      match emailN with
      | some en =>
        if en.isEmpty then false
        else
          match ev.emailNormP with
          | some st =>
            if !st.isEmpty && st == en then true
            else ev.attendees.any (fun a => normalize_email a == some en)
          | none => ev.attendees.any (fun a => normalize_email a == some en)
      | none => false
    let phoneStep : Option Bool :=
      match phoneN with
      | some pn =>
        if pn.isEmpty then some false
        else
          match ev.phoneNormP with
          | some st =>
            if !st.isEmpty && st == pn then some true
            else
              match normalize_phone (some ev.description) with
              | some dd => some (hasSub pn.data dd.data)
              | none => none
          | none =>
            match normalize_phone (some ev.description) with
            | some dd => some (hasSub pn.data dd.data)
            | none => none
      | none => some false
    match phoneStep with
    | none => .pyErr
    | some phoneMatches =>
      if (truthyO emailN || truthyO phoneN) && (emailMatches || phoneMatches) then
        .found ev emailMatches phoneMatches
      else scanEvents emailN phoneN rest

/-! ### delete_appointment (calendar_tools.py lines 972-1088) -/

structure DeleteResult where
  status : String
  orderId : Option String := none
  eventName : Option String := none
  eventTime : Option String := none
  message : String
deriving DecidableEq, Repr

/-- Render the matched-identifier audit detail. -/
def verifiedVia (em ph : Bool) : String :=
  if em && ph then "email & phone" else if em then "email" else "phone"

/-- `delete_appointment`: identifier validation first (before any remote
call), then the upcoming-events listing, the matching loop, and the
delete of the first match.  `listUp` is the list-upcoming endpoint and
`del` the delete endpoint. -/
def delete_appointment (listUp : Except String (List CalEvent))
    (del : String → Except String Unit) (email phone : Option String) :
    DeleteResult × List RemoteOp :=
  if !truthyO email && !truthyO phone then
    ({ status := "rejected",
       message := "Please provide either an email address or phone number to cancel the appointment" },
     [])
  else
    match listUp with
    | .error e =>
      ({ status := "rejected", message := "Google Calendar API error: " ++ e },
       [.listUpcoming])
    | .ok events =>
      if events.isEmpty then
        ({ status := "rejected", message := "No upcoming appointments found" },
         [.listUpcoming])
      else
        let emailN := if truthyO email then normalize_email email else none
        let phoneN := if truthyO phone then normalize_phone phone else none
        match scanEvents emailN phoneN events with
        | .pyErr =>
          ({ status := "rejected",
             message := "Failed to cancel appointment: TypeError" }, [.listUpcoming])
        | .noMatch =>
          ({ status := "rejected",
             message := "No upcoming appointment found matching the given identifiers" },
           [.listUpcoming])
        | .found ev em ph =>
          match del ev.id with
          | .error e =>
            ({ status := "rejected", message := "Google Calendar API error: " ++ e },
             [.listUpcoming, .deleteEv ev.id])
          | .ok _ =>
            ({ status := "approved", orderId := some ev.id,
               eventName := some ev.summary, eventTime := some ev.startRaw,
               message := "Appointment " ++ ev.summary
                 ++ " has been successfully cancelled (verified via "
                 ++ verifiedVia em ph ++ ")" },
             [.listUpcoming, .deleteEv ev.id])

/-! ### move_appointment (calendar_tools.py lines 1090-1300) -/

structure MoveResult where
  status : String
  orderId : Option String := none
  eventName : Option String := none
  oldDate : Option String := none
  newDate : Option String := none
  newTime : Option String := none
  message : String
deriving DecidableEq, Repr

/-- `old_start.split('T')` handling of the matched event's raw start. -/
def splitAtT (s : String) : String × String :=
  if s.data.contains 'T' then
    match splitOnChar 'T' s.data with
    | d :: t :: _ => (⟨d⟩, ⟨t.take 5⟩)
    | _ => (s, "00:00")
  else (s, "00:00")

/-- The body of `move_appointment` after resume handling: list upcoming
events, match, then validate and re-check the new window and update in
place.  `toolCtx` is `none` when no tool context was passed, `some none`
when a context is present without a pending confirmation, and
`some (some c)` during a resume. -/
def moveBody (toolCtx : Option (Option Confirmation))
    (listUp : Except String (List CalEvent)) (q : Query)
    (upd : String → Nat → Nat → Except String Unit)
    (email phone newDate newTime : Option String) :
    MoveResult × List RemoteOp × Option PendingReq :=
  match listUp with
  | .error e =>
    ({ status := "rejected", message := "An error occurred: " ++ e },
     [.listUpcoming], none)
  | .ok events =>
    let emailN := if truthyO email then normalize_email email else none
    let phoneN := if truthyO phone then normalize_phone phone else none
    match scanEvents emailN phoneN events with
    | .pyErr =>
      ({ status := "rejected",
         message := "Failed to reschedule appointment: TypeError" },
       [.listUpcoming], none)
    | .noMatch =>
      ({ status := "rejected",
         message := "No matching appointment found to reschedule" },
       [.listUpcoming], none)
    | .found ev em ph =>
      match newDate, newTime with
      | some nd, some nt =>
        (match is_it_in_work_hours nd nt with
         | none =>
           ({ status := "rejected",
              message := "Failed to reschedule appointment: ValueError" },
            [.listUpcoming], none)
         | some false =>
           ({ status := "rejected",
              message := "Cannot reschedule - the time " ++ nt ++ " on " ++ nd
                ++ " is outside business hours (9 AM - 5 PM, Monday-Friday) or falls on a holiday." },
            [.listUpcoming], none)
         | some true =>
           match parse_date_to_datetime nd, parseTimeHM nt with
           | some dt, some (h, mi) =>
             let s := toInstant dt h mi
             (match q s (s + 60) with
              | .error e =>
                ({ status := "rejected", message := "An error occurred: " ++ e },
                 [.listUpcoming, .listWin s (s + 60)], none)
              | .ok evs =>
                let conflicting := evs.filter (fun e2 => e2.id ≠ ev.id)
                if conflicting.isEmpty then
                  match upd ev.id s (s + 60) with
                  | .error e =>
                    ({ status := "rejected",
                       message := "An error occurred: " ++ e },
                     [.listUpcoming, .listWin s (s + 60), .updateEv ev.id s (s + 60)],
                     none)
                  | .ok _ =>
                    ({ status := "approved", orderId := some ev.id,
                       eventName := some ev.summary,
                       oldDate := some (splitAtT ev.startRaw).1,
                       newDate := some nd, newTime := some nt,
                       message := "Appointment " ++ ev.summary
                         ++ " successfully rescheduled from "
                         ++ (splitAtT ev.startRaw).1 ++ " at "
                         ++ (splitAtT ev.startRaw).2 ++ " to " ++ nd ++ " at " ++ nt
                         ++ " (verified via " ++ verifiedVia em ph ++ ")" },
                     [.listUpcoming, .listWin s (s + 60), .updateEv ev.id s (s + 60)],
                     none)
                else
                  let next := find_next_available_slot q nd nt 10
                  if toolCtx == some none && next.1.status == "approved" then
                    ({ status := "pending",
                       message := "The slot " ++ nt ++ " on " ++ nd
                         ++ " is occupied. Alternative: "
                         ++ next.1.availableDate.getD "" ++ " at "
                         ++ next.1.availableTime.getD ""
                         ++ ". Awaiting user confirmation." },
                     [.listUpcoming, .listWin s (s + 60)] ++ next.2,
                     some ("The requested time slot " ++ nt ++ " on " ++ nd
                         ++ " is occupied. Would you like to reschedule to "
                         ++ next.1.availableDate.getD "" ++ " at "
                         ++ next.1.availableTime.getD "" ++ " instead?",
                       [("email", email), ("phone", phone),
                        ("original_date", some nd), ("original_time", some nt),
                        ("alternative_date", next.1.availableDate),
                        ("alternative_time", next.1.availableTime)]))
                  else if next.1.status == "approved" then
                    ({ status := "rejected",
                       message := "Cannot reschedule - the slot " ++ nt ++ " on "
                         ++ nd ++ " is occupied. Next available: "
                         ++ next.1.availableDate.getD "" ++ " at "
                         ++ next.1.availableTime.getD "" ++ "." },
                     [.listUpcoming, .listWin s (s + 60)] ++ next.2, none)
                  else
                    ({ status := "rejected",
                       message := "Cannot reschedule - the slot " ++ nt ++ " on "
                         ++ nd
                         ++ " is occupied and no alternatives available." },
                     [.listUpcoming, .listWin s (s + 60)] ++ next.2, none))
           | _, _ =>
             ({ status := "rejected",
                message := "Failed to reschedule appointment: ValueError" },
              [.listUpcoming], none))
      | _, _ =>
        ({ status := "rejected",
           message := "Failed to reschedule appointment: TypeError" },
         [.listUpcoming], none)

/-- `move_appointment`: a resume with `confirmed=false` rejects with no
side effects; a resume with `confirmed=true` substitutes the payload's
alternative window and identifiers; otherwise the body runs on the
given arguments.  There is no missing-identifier validation. -/
def move_appointment (toolCtx : Option (Option Confirmation))
    (listUp : Except String (List CalEvent)) (q : Query)
    (upd : String → Nat → Nat → Except String Unit)
    (email phone newDate newTime : Option String) :
    MoveResult × List RemoteOp × Option PendingReq :=
  match toolCtx with
  | some (some c) =>
    if c.confirmed then
      moveBody (some (some c)) listUp q upd
        (payloadGet c.payload "email") (payloadGet c.payload "phone")
        (payloadGetD c.payload "alternative_date" newDate)
        (payloadGet c.payload "alternative_time")
    else
      ({ status := "rejected",
         message := "User declined the alternative time slot for rescheduling" },
       [], none)
  | _ => moveBody toolCtx listUp q upd email phone newDate newTime

/-! ### Missing-identifier behaviour of Cancel and Move -/

/-- With no identifiers, the matching loop never selects an event. -/
theorem scanEvents_none_none (events : List CalEvent) :
    scanEvents none none events = .noMatch := by
  induction events with
  | nil => rfl
  | cons ev rest ih => simp [scanEvents, truthyO, ih]

/-- A sample stored event (created before identity normalization: no
`phone_norm` metadata, the phone number only inside the description). -/
def sampleEv : CalEvent :=
  { id := "ev1", summary := "General Consultation - John Doe",
    description := "Treatment: General Consultation Phone: 15551234567",
    attendees := [some "john@example.com"],
    startRaw := "2025-12-10T10:00:00+01:00",
    startI := toInstant ⟨2025, 12, 10⟩ 10 0,
    stopI := toInstant ⟨2025, 12, 10⟩ 11 0 }

/-- C6 counterexample: `move_appointment` called with neither an email
nor a phone returns the generic no-match rejection — not a distinct
validation error like `delete_appointment`'s. -/
theorem move_missing_identifier_counterexample :
    (move_appointment (some none) (Except.ok [sampleEv]) (queryCal [sampleEv])
        (fun _ _ _ => Except.ok ()) none none (some "2025-12-05")
        (some "14:00")).1 =
      { status := "rejected",
        message := "No matching appointment found to reschedule" } ∧
    (move_appointment (some none) (Except.ok [sampleEv]) (queryCal [sampleEv])
        (fun _ _ _ => Except.ok ()) none none (some "2025-12-05")
        (some "14:00")).1.message ≠
      (delete_appointment (Except.ok [sampleEv]) (fun _ => Except.ok ())
        none none).1.message := by
  constructor
  · decide
  · decide

/-- C6 (amended): `delete_appointment` with neither identifier returns
the distinct ask-for-an-identifier validation error before any remote
call, but `move_appointment` with neither identifier (outside a resume)
instead falls through its matching loop to the generic no-match
rejection used when no appointment matches. -/
theorem missing_identifier_paths (listUp : Except String (List CalEvent))
    (del : String → Except String Unit) (events : List CalEvent) (q : Query)
    (upd : String → Nat → Nat → Except String Unit)
    (ctx : Option (Option Confirmation)) (nd nt : Option String)
    (hctx : ctx = none ∨ ctx = some none) :
    delete_appointment listUp del none none =
      ({ status := "rejected",
         message := "Please provide either an email address or phone number to cancel the appointment" },
       []) ∧
    (move_appointment ctx (Except.ok events) q upd none none nd nt).1 =
      { status := "rejected",
        message := "No matching appointment found to reschedule" } := by
  constructor
  · simp [delete_appointment, truthyO]
  · have hb : (moveBody ctx (Except.ok events) q upd none none nd nt).1 =
        { status := "rejected",
          message := "No matching appointment found to reschedule" } := by
      simp [moveBody, truthyO, scanEvents_none_none]
    rcases hctx with h | h <;> subst h <;> simpa [move_appointment] using hb

/-- Witness for `missing_identifier_paths` at concrete inputs. -/
theorem missing_identifier_paths_witness :
    delete_appointment (Except.ok [sampleEv]) (fun _ => Except.ok ()) none none =
      ({ status := "rejected",
         message := "Please provide either an email address or phone number to cancel the appointment" },
       []) ∧
    (move_appointment none (Except.ok [sampleEv]) (queryCal [sampleEv])
        (fun _ _ _ => Except.ok ()) none none (some "2025-12-05")
        (some "14:00")).1 =
      { status := "rejected",
        message := "No matching appointment found to reschedule" } :=
  missing_identifier_paths (Except.ok [sampleEv]) (fun _ => Except.ok ())
    [sampleEv] (queryCal [sampleEv]) (fun _ _ _ => Except.ok ()) none
    (some "2025-12-05") (some "14:00") (Or.inl rfl)

/-! ### Legacy phone matching is substring containment (C10) -/

/-- Shape of the matching loop on a single legacy event (no stored
`phone_norm`, nonempty description) when only a phone is supplied:
the nonempty normalized phone matches by substring containment in the
description's digit string. -/
theorem scanEvents_legacy_phone (ev : CalEvent) (pn : String)
    (rest : List CalEvent)
    (hstored : ev.phoneNormP = none) (hdesc : ev.description.isEmpty = false) :
    scanEvents none (some pn) (ev :: rest) =
      (if pn.isEmpty then scanEvents none (some pn) rest
       else if hasSub pn.data (phoneDigits ev.description).data then
         MatchScan.found ev false true
       else scanEvents none (some pn) rest) := by
  by_cases hpn : pn.isEmpty
  · simp [scanEvents, hstored, hpn, truthyO]
  · by_cases hsub : hasSub pn.data (phoneDigits ev.description).data
    · simp [scanEvents, hstored, hpn, hsub, truthyO, normalize_phone, hdesc]
    · simp [scanEvents, hstored, hpn, hsub, truthyO, normalize_phone, hdesc]

/-- C10: for a legacy event (no stored `phone_norm`) a caller-supplied
phone authorizes both Cancel and Move exactly when its nonempty
normalized digit string occurs as a substring of the digit string
extracted from the event's free-text description — containment, not
equality, so a proper suffix of the stored number suffices. -/
theorem legacy_phone_substring_authorizes
    (ev : CalEvent) (p : String) (del : String → Except String Unit)
    (q : Query) (upd : String → Nat → Nat → Except String Unit)
    (nd nt : String) (D : Date) (H M : Nat)
    (hstored : ev.phoneNormP = none)
    (hp : p.isEmpty = false)
    (hdesc : ev.description.isEmpty = false)
    (hwh : is_it_in_work_hours nd nt = some true)
    (hpd : parse_date_to_datetime nd = some D)
    (hpt : parseTimeHM nt = some (H, M))
    (hq : q (toInstant D H M) (toInstant D H M + 60) = Except.ok [])
    (hupd : upd ev.id (toInstant D H M) (toInstant D H M + 60) = Except.ok ()) :
    ((delete_appointment (Except.ok [ev]) del none (some p)).2.contains
        (RemoteOp.deleteEv ev.id) = true ↔
      ((phoneDigits p).isEmpty = false ∧
        hasSub (phoneDigits p).data (phoneDigits ev.description).data = true)) ∧
    ((move_appointment none (Except.ok [ev]) q upd none (some p) (some nd)
        (some nt)).1.status = "approved" ↔
      ((phoneDigits p).isEmpty = false ∧
        hasSub (phoneDigits p).data (phoneDigits ev.description).data = true)) := by
  have hscan : scanEvents none (some (phoneDigits p)) [ev] =
      (if (phoneDigits p).isEmpty = false ∧
          hasSub (phoneDigits p).data (phoneDigits ev.description).data = true then
        MatchScan.found ev false true
      else MatchScan.noMatch) := by
    rw [scanEvents_legacy_phone ev _ [] hstored hdesc]
    by_cases h1 : (phoneDigits p).isEmpty <;>
      by_cases h2 : hasSub (phoneDigits p).data (phoneDigits ev.description).data <;>
      simp [h1, h2, scanEvents]
  by_cases hC : (phoneDigits p).isEmpty = false ∧
      hasSub (phoneDigits p).data (phoneDigits ev.description).data = true
  · rw [if_pos hC] at hscan
    constructor
    · refine ⟨fun _ => hC, fun _ => ?_⟩
      cases hdel : del ev.id with
      | error e =>
        simp [delete_appointment, truthyO, hp, normalize_phone, hscan, hdel]
      | ok u =>
        simp [delete_appointment, truthyO, hp, normalize_phone, hscan, hdel]
    · refine ⟨fun _ => hC, fun _ => ?_⟩
      simp [move_appointment, moveBody, truthyO, hp, normalize_phone, hscan,
        hwh, hpd, hpt, hq, hupd]
  · rw [if_neg hC] at hscan
    constructor
    · refine ⟨fun hcon => absurd hcon ?_, fun hc => absurd hc hC⟩
      simp [delete_appointment, truthyO, hp, normalize_phone, hscan]
    · refine ⟨fun hcon => absurd hcon ?_, fun hc => absurd hc hC⟩
      simp [move_appointment, moveBody, truthyO, hp, normalize_phone, hscan]

/-- Witness for `legacy_phone_substring_authorizes`: the last four
digits of the stored number (a proper substring) delete and move
`sampleEv`. -/
theorem legacy_phone_substring_authorizes_witness :
    (delete_appointment (Except.ok [sampleEv]) (fun _ => Except.ok ())
        none (some "4567")).2.contains (RemoteOp.deleteEv sampleEv.id) = true ∧
    (move_appointment none (Except.ok [sampleEv]) (fun _ _ => Except.ok [])
        (fun _ _ _ => Except.ok ()) none (some "4567") (some "2025-12-05")
        (some "14:00")).1.status = "approved" :=
  ⟨(legacy_phone_substring_authorizes sampleEv "4567" (fun _ => Except.ok ())
      (fun _ _ => Except.ok []) (fun _ _ _ => Except.ok ()) "2025-12-05" "14:00"
      ⟨2025, 12, 5⟩ 14 0 rfl (by decide) (by decide) (by decide) (by decide)
      (by decide) rfl rfl).1.mpr ⟨by decide, by decide⟩,
   (legacy_phone_substring_authorizes sampleEv "4567" (fun _ => Except.ok ())
      (fun _ _ => Except.ok []) (fun _ _ _ => Except.ok ()) "2025-12-05" "14:00"
      ⟨2025, 12, 5⟩ 14 0 rfl (by decide) (by decide) (by decide) (by decide)
      (by decide) rfl rfl).2.mpr ⟨by decide, by decide⟩⟩

/-! ### parse_date_expression: weekday names
(calendar_tools.py lines 441-477) -/

/-- The days-ahead computation of the weekday branch: with "next" in
the expression the offset is bumped past the current week; a bare
weekday takes the nearest nonnegative offset. -/
def days_ahead_for_weekday (containsNext : Bool) (dayNum currentWeekday : Int) : Int :=
  if containsNext then
    let d0 := dayNum - currentWeekday
    let d1 := if d0 ≤ 0 then d0 + 7 else d0
    if d1 < 7 then d1 + 7 else d1
  else
    let d0 := dayNum - currentWeekday
    if d0 < 0 then d0 + 7 else d0

/-- C7: a bare weekday resolves to the nearest future occurrence of the
requested weekday, today included (offset in 0..6, landing on the
requested weekday, and no smaller offset does); a "next weekday"
expression resolves at least 7 and at most 13 days out — never inside
the current Monday-based week — again landing on the requested
weekday. -/
theorem parse_weekday_resolution (d c : Int)
    (hd0 : 0 ≤ d) (hd : d < 7) (hc0 : 0 ≤ c) (hc : c < 7) :
    (0 ≤ days_ahead_for_weekday false d c ∧
     days_ahead_for_weekday false d c < 7 ∧
     (c + days_ahead_for_weekday false d c) % 7 = d ∧
     (∀ k : Int, 0 ≤ k → k < days_ahead_for_weekday false d c → (c + k) % 7 ≠ d) ∧
     (d = c → days_ahead_for_weekday false d c = 0)) ∧
    (7 ≤ days_ahead_for_weekday true d c ∧
     days_ahead_for_weekday true d c ≤ 13 ∧
     (c + days_ahead_for_weekday true d c) % 7 = d ∧
     7 ≤ c + days_ahead_for_weekday true d c) := by
  have hbare : days_ahead_for_weekday false d c =
      (if d - c < 0 then d - c + 7 else d - c) := by
    simp [days_ahead_for_weekday]
  have hnext : days_ahead_for_weekday true d c =
      (if (if d - c ≤ 0 then d - c + 7 else d - c) < 7 then
        (if d - c ≤ 0 then d - c + 7 else d - c) + 7
      else (if d - c ≤ 0 then d - c + 7 else d - c)) := by
    simp [days_ahead_for_weekday]
  refine ⟨⟨?_, ?_, ?_, ?_, ?_⟩, ⟨?_, ?_, ?_, ?_⟩⟩
  · rw [hbare]; split_ifs <;> omega
  · rw [hbare]; split_ifs <;> omega
  · rw [hbare]; split_ifs <;> omega
  · intro k hk0 hk1 hkeq
    rw [hbare] at hk1
    split_ifs at hk1 <;> omega
  · intro hdc; rw [hbare]; split_ifs <;> omega
  · rw [hnext]; split_ifs <;> omega
  · rw [hnext]; split_ifs <;> omega
  · rw [hnext]; split_ifs <;> omega
  · rw [hnext]; split_ifs <;> omega

/-- Witness for `parse_weekday_resolution`: requesting Monday (0) on a
Wednesday (2): bare resolves 5 days out, "next" resolves 12 days out. -/
theorem parse_weekday_resolution_witness :
    days_ahead_for_weekday false 0 2 = 5 ∧
    days_ahead_for_weekday true 0 2 = 12 ∧
    (2 + days_ahead_for_weekday false 0 2) % 7 = 0 ∧
    7 ≤ days_ahead_for_weekday true 0 2 := by
  have h := parse_weekday_resolution 0 2 (by decide) (by decide) (by decide)
    (by decide)
  exact ⟨by decide, by decide, h.1.2.2.1, h.2.1⟩

/-! ### parse_date_expression: month-name dates without a year
(calendar_tools.py lines 515-553) -/

/-- A Python datetime value at calendar-day + time-of-day granularity;
`tod` is the time of day in sub-day units, 0 at midnight. -/
structure PyDateTime where
  date : Date
  tod : Nat
deriving DecidableEq, Repr

/-- Python datetime comparison (field-lexicographic). -/
def pyDateTimeLt (a b : PyDateTime) : Bool :=
  decide (a.date.year < b.date.year) ||
    (a.date.year == b.date.year &&
      (decide (a.date.month < b.date.month) ||
        (a.date.month == b.date.month &&
          (decide (a.date.day < b.date.day) ||
            (a.date.day == b.date.day && decide (a.tod < b.tod))))))

/-- The year-resolution step of the month-name branch: strptime leaves
year 1900 when the expression had no year; the code then substitutes
the current year and bumps to the next year when the parsed datetime
(at midnight) is strictly before `now`. -/
def resolve_month_name_date (now : PyDateTime) (parsedYear month day : Nat) : Date :=
  if parsedYear == 1900 then
    let d0 : Date := ⟨now.date.year, month, day⟩
    if pyDateTimeLt ⟨d0, 0⟩ now then ⟨now.date.year + 1, month, day⟩ else d0
  else ⟨parsedYear, month, day⟩

/-- C8 counterexample: with reference now 2025-11-27 at 10:00, the
month-name date "November 27" — the reference's own calendar date —
is rolled to 2026, because the comparison is against the full datetime
and the parsed date sits at midnight. -/
theorem resolve_month_name_same_day_counterexample :
    (resolve_month_name_date ⟨⟨2025, 11, 27⟩, 600⟩ 1900 11 27).year = 2026 := by
  decide

/-- C8 (amended): a month-name date without a year defaults to the
current year and is rolled to the next year exactly when midnight of
the resulting date is strictly before the reference instant; hence a
month-name date equal to the reference's own calendar date stays in
the current year only when the reference time is exactly midnight. -/
theorem resolve_month_name_year_roll (now : PyDateTime) (m d : Nat) :
    ((resolve_month_name_date now 1900 m d).year = now.date.year + 1 ↔
      pyDateTimeLt ⟨⟨now.date.year, m, d⟩, 0⟩ now = true) ∧
    (m = now.date.month → d = now.date.day →
      ((resolve_month_name_date now 1900 m d).year = now.date.year ↔ now.tod = 0)) := by
  constructor
  · by_cases h : pyDateTimeLt ⟨⟨now.date.year, m, d⟩, 0⟩ now = true
    · simp [resolve_month_name_date, h]
    · simp [resolve_month_name_date, h]
  · intro hm hd
    subst hm
    subst hd
    have hcmp : pyDateTimeLt ⟨⟨now.date.year, now.date.month, now.date.day⟩, 0⟩ now =
        decide (0 < now.tod) := by
      simp [pyDateTimeLt]
    by_cases ht : now.tod = 0
    · simp [resolve_month_name_date, hcmp, ht]
    · have hpos : (0 : Nat) < now.tod := Nat.pos_of_ne_zero ht
      have hcmpt : pyDateTimeLt ⟨⟨now.date.year, now.date.month, now.date.day⟩, 0⟩ now =
          true := by rw [hcmp]; exact decide_eq_true hpos
      simp only [resolve_month_name_date, beq_self_eq_true, if_true, hcmpt]
      constructor
      · intro hcon; omega
      · intro hcon; exact absurd hcon ht

/-- Witness for `resolve_month_name_year_roll`: at reference midnight
2025-11-27 00:00 the same-day month-name date stays in 2025. -/
theorem resolve_month_name_year_roll_witness :
    (resolve_month_name_date ⟨⟨2025, 11, 27⟩, 0⟩ 1900 11 27).year = 2025 ∧
    ((resolve_month_name_date ⟨⟨2025, 11, 27⟩, 0⟩ 1900 11 27).year = 2025 ↔
      (0 : Nat) = 0) :=
  ⟨((resolve_month_name_year_roll ⟨⟨2025, 11, 27⟩, 0⟩ 11 27).2 rfl rfl).mpr rfl,
   (resolve_month_name_year_roll ⟨⟨2025, 11, 27⟩, 0⟩ 11 27).2 rfl rfl⟩

end CalendarTools

